import Mathlib

/-!
# PromptLock — verification of the capability-protocol / aggregation core

Shallow embedding of the TypeScript sources of the PromptLock repository:

* `src/server/routes/context.ts` — the context aggregator (`contextRouter`
  POST handler and its `getAdapter` helper);
* `src/server/adapters/salesforce.ts` — the typed Salesforce capability
  adapter (namespace `SF` below);
* the untyped MCP iteration of the server: the `SalesforceAdapter` with
  `handleMcpMessage` and the `app.post('/api/mcp/:connectionId')` route
  (namespace `MCP` below);
* the connections router (`connections.ts`, namespace `Conn` below).

Conventions of the embedding:

* JavaScript exceptions become `Except`-valued results; `try`/`catch`
  becomes a `match` on the `Except`.
* Mutable object state (`this.isConnected`, the metadata cache) becomes
  explicit state passing: an operation takes a state and returns
  `result × new-state`; a thrown exception leaves the state as it was.
* Calls into the `jsforce` library (the network) are a `Backend` record of
  `Except`-valued functions; the JSON rendering of backend payloads
  (`JSON.stringify` of the mapped objects) is absorbed into the backend
  parameter, since no verified property inspects that text.
* JavaScript strings are Lean `String`s; `toUpperCase` / `toLowerCase` /
  `includes` / `slice` are re-implemented below over the character list so
  that the kernel can evaluate them (`jsUpper`, `jsLower`, `containsSub`,
  `jsSliceTo`).
* `undefined` becomes `Option`; JavaScript truthiness of a number is the
  test against `0`.
-/

namespace PromptLock

/-- JS `s.toUpperCase()` (on the ASCII service names used here). -/
def jsUpper (s : String) : String := ⟨s.data.map Char.toUpper⟩

/-- JS `s.toLowerCase()`. -/
def jsLower (s : String) : String := ⟨s.data.map Char.toLower⟩

/-- Tests that `sub` is a prefix of `l` (Boolean, structural). -/
def listHasPfx : List Char → List Char → Bool
  | _, [] => true
  | [], _ :: _ => false
  | c :: cs, d :: ds => c == d && listHasPfx cs ds

/-- Tests that `sub` occurs inside `l` (Boolean, structural). -/
def listHasSub (l sub : List Char) : Bool :=
  match l with
  | [] => sub.isEmpty
  | _ :: rest => listHasPfx l sub || listHasSub rest sub

/-- JS `s.includes(sub)`. -/
def containsSub (s sub : String) : Bool := listHasSub s.data sub.data

/-- JS `s.slice(0, e)`: a negative end index counts from the end of the
string, clamped at zero. -/
def jsSliceTo (s : String) (e : Int) : String :=
  if e < 0 then ⟨s.data.take (s.data.length - e.natAbs)⟩
  else ⟨s.data.take e.toNat⟩

/-- Concatenation of a list of strings (the running `context +=` document
read off piece by piece). -/
def concatAll : List String → String
  | [] => ""
  | s :: rest => s ++ concatAll rest

/-- A JSON value, as accepted by the route bodies and by the zod schemas
(`z.object`, `z.string`, `z.number`, `z.array`). -/
inductive Json where
  | null
  | bool (b : Bool)
  | num (n : Int)
  | str (s : String)
  | arr (xs : List Json)
  | obj (fields : List (String × Json))

/-- First binding of a key in a JS object literal. -/
def getField : List (String × Json) → String → Option Json
  | [], _ => none
  | (k, v) :: rest, key => if k == key then some v else getField rest key

/-- The `SalesforceCredentials` interface from `salesforce.ts`. -/
structure SalesforceCredentials where
  clientId : String
  clientSecret : String
  username : String
  password : String
deriving DecidableEq

/-- A resource descriptor `{name, description, url}` as in the static
`SALESFORCE_RESOURCES` table and as consumed by the context route. -/
structure MCPResource where
  name : String
  description : String
  url : String
deriving DecidableEq

/-- The `APIError` of `middleware/errorHandler`: an HTTP status code plus a
message. -/
structure APIError where
  statusCode : Nat
  message : String
deriving DecidableEq

/-- The effects offered by the `jsforce` connection object.  Each field is
the outcome (success value or thrown error message) of one network call;
result payloads are carried as already-rendered text because no claim
inspects them. -/
structure Backend where
  login : String → String → Except String Unit
  describeGlobal : Except String String
  recent : Except String String
  query : String → Except String String
  retrieve : String → String → Option (List String) → Except String String
  describe : String → Except String String

end PromptLock

namespace PromptLock.SF

/-!
## `src/server/adapters/salesforce.ts`
-/

open PromptLock

/-- The mutable fields of a `SalesforceAdapter` instance
(`this.credentials`, `this.isConnected`, `this.objectsMetadata`). -/
structure AdapterState where
  credentials : Option SalesforceCredentials
  isConnected : Bool
  objectsMetadata : List (String × String)
deriving DecidableEq

/-- Constructor `new SalesforceAdapter(credentials?)`. -/
def mkAdapter (credentials : Option SalesforceCredentials) : AdapterState :=
  ⟨credentials, false, []⟩

/-- The static `SALESFORCE_RESOURCES` table. -/
def SALESFORCE_RESOURCES : List MCPResource :=
  [⟨"schema", "Salesforce schema information including objects and their fields", "schema"⟩,
   ⟨"recent_items", "Recently accessed items in Salesforce", "recent_items"⟩]

/-- Method `ensureConnection`: log in on first use; a thrown error leaves the
instance state unchanged (in particular `isConnected` stays `false`). -/
def ensureConnection (backend : Backend) (st : AdapterState) :
    Except APIError Unit × AdapterState :=
  if st.isConnected then (.ok (), st)
  else
    match st.credentials with
    | none => (.error ⟨400, "Salesforce credentials not provided"⟩, st)
    | some creds =>
      match backend.login creds.username creds.password with
      | .ok _ => (.ok (), { st with isConnected := true })
      | .error _ => (.error ⟨500, "Failed to authenticate with Salesforce"⟩, st)

/-- Method `listResources` (static). -/
def listResources : List MCPResource := SALESFORCE_RESOURCES

/-- Method `getGlobalObjects`: wraps any backend failure into a 500. -/
def getGlobalObjects (backend : Backend) : Except APIError String :=
  match backend.describeGlobal with
  | .ok s => .ok s
  | .error _ => .error ⟨500, "Failed to retrieve Salesforce objects"⟩

/-- Method `readResource(resourceUrl)`: connect, then switch on the locator; an
unknown locator is a 404 thrown from inside the `try` and re-thrown as-is
by the `catch` (it is an `APIError`); a raw `jsforce` failure of
`conn.recent()` is converted to a 500. -/
def readResource (backend : Backend) (st : AdapterState) (resourceUrl : String) :
    Except APIError String × AdapterState :=
  match ensureConnection backend st with
  | (.error e, st') => (.error e, st')
  | (.ok _, st') =>
    if resourceUrl == "schema" then
      match getGlobalObjects backend with
      | .ok content => (.ok content, st')
      | .error e => (.error e, st')
    else if resourceUrl == "recent_items" then
      match backend.recent with
      | .ok content => (.ok content, st')
      | .error _ => (.error ⟨500, "Failed to read Salesforce resource"⟩, st')
    else (.error ⟨404, "Unknown resource: " ++ resourceUrl⟩, st')

/-- The result of a successful zod `inputSchema.parse` for one of the three
tools. -/
inductive ParsedParams where
  | queryRecords (soql : String) (limit : Option Int)
  | getRecord (objectType : String) (recordId : String) (fields : Option (List String))
  | describeObject (objectType : String)

/-- zod: every element of the array must be a string. -/
def asStringArray : List Json → Option (List String)
  | [] => some []
  | .str s :: rest => (asStringArray rest).map (s :: ·)
  | _ :: _ => none

/-- zod schema of `query_records`: `{soql: string, limit?: number}`
(unknown keys stripped; the error text abbreviates zod's message). -/
def parseQueryRecords (p : Json) : Except String ParsedParams :=
  match p with
  | .obj fs =>
    match getField fs "soql" with
    | some (.str s) =>
      match getField fs "limit" with
      | none => .ok (.queryRecords s none)
      | some (.num n) => .ok (.queryRecords s (some n))
      | some _ => .error "limit: Expected number"
    | some _ => .error "soql: Expected string"
    | none => .error "soql: Required"
  | _ => .error "Expected object"

/-- zod schema of `get_record`:
`{objectType: string, recordId: string, fields?: string[]}`. -/
def parseGetRecord (p : Json) : Except String ParsedParams :=
  match p with
  | .obj fs =>
    match getField fs "objectType" with
    | some (.str ot) =>
      match getField fs "recordId" with
      | some (.str rid) =>
        match getField fs "fields" with
        | none => .ok (.getRecord ot rid none)
        | some (.arr xs) =>
          match asStringArray xs with
          | some strs => .ok (.getRecord ot rid (some strs))
          | none => .error "fields: Expected array of strings"
        | some _ => .error "fields: Expected array"
      | some _ => .error "recordId: Expected string"
      | none => .error "recordId: Required"
    | some _ => .error "objectType: Expected string"
    | none => .error "objectType: Required"
  | _ => .error "Expected object"

/-- zod schema of `describe_object`: `{objectType: string}`. -/
def parseDescribeObject (p : Json) : Except String ParsedParams :=
  match p with
  | .obj fs =>
    match getField fs "objectType" with
    | some (.str ot) => .ok (.describeObject ot)
    | some _ => .error "objectType: Expected string"
    | none => .error "objectType: Required"
  | _ => .error "Expected object"

/-- A `SalesforceTool` descriptor: name, description, and the zod
`inputSchema` as a checker. -/
structure SalesforceTool where
  name : String
  description : String
  inputSchema : Json → Except String ParsedParams

/-- The static `SALESFORCE_TOOLS` table. -/
def salesforceTools : List SalesforceTool :=
  [⟨"query_records", "Execute a SOQL query to retrieve Salesforce records", parseQueryRecords⟩,
   ⟨"get_record", "Retrieve a single Salesforce record by ID", parseGetRecord⟩,
   ⟨"describe_object", "Get metadata about a Salesforce object", parseDescribeObject⟩]

/-- Method `queryRecords`: appends ` LIMIT n` when `limit` is truthy and the query
does not already contain `limit`; wraps backend failures into a 400. -/
def queryRecords (backend : Backend) (st : AdapterState)
    (soql : String) (limit : Option Int) :
    Except APIError String × AdapterState :=
  let query :=
    match limit with
    | some l =>
      if l != 0 && !(containsSub (jsLower soql) "limit") then
        soql ++ " LIMIT " ++ toString l
      else soql
    | none => soql
  match backend.query query with
  | .ok r => (.ok r, st)
  | .error msg => (.error ⟨400, "Failed to execute query: " ++ msg⟩, st)

/-- Method `getRecord`: retrieve with the field list when a non-empty one is
given. -/
def getRecord (backend : Backend) (st : AdapterState)
    (objectType recordId : String) (fields : Option (List String)) :
    Except APIError String × AdapterState :=
  let call :=
    match fields with
    | some fs =>
      if fs.length > 0 then backend.retrieve objectType recordId (some fs)
      else backend.retrieve objectType recordId none
    | none => backend.retrieve objectType recordId none
  match call with
  | .ok r => (.ok r, st)
  | .error msg => (.error ⟨400, "Failed to retrieve record: " ++ msg⟩, st)

/-- Method `describeObject`: per-instance metadata cache, populated on first
fetch. -/
def describeObject (backend : Backend) (st : AdapterState) (objectType : String) :
    Except APIError String × AdapterState :=
  match st.objectsMetadata.lookup objectType with
  | some m => (.ok m, st)
  | none =>
    match backend.describe objectType with
    | .ok m =>
      (.ok m, { st with objectsMetadata := st.objectsMetadata ++ [(objectType, m)] })
    | .error msg => (.error ⟨400, "Failed to describe object: " ++ msg⟩, st)

/-- The `switch (toolName)` after validation. -/
def dispatchTool (backend : Backend) (st : AdapterState)
    (toolName : String) (validated : ParsedParams) :
    Except APIError String × AdapterState :=
  match toolName, validated with
  | "query_records", .queryRecords soql lim => queryRecords backend st soql lim
  | "get_record", .getRecord ot rid fs => getRecord backend st ot rid fs
  | "describe_object", .describeObject ot => describeObject backend st ot
  | t, _ => (.error ⟨400, "Unsupported tool: " ++ t⟩, st)

/-- Method `callTool(toolName, parameters)`: connect, look the tool up (404 when
absent), validate against its schema (a zod failure becomes a 400
`Invalid parameters`), then dispatch; dispatch errors are re-thrown. -/
def callTool (backend : Backend) (st : AdapterState)
    (toolName : String) (parameters : Json) :
    Except APIError String × AdapterState :=
  match ensureConnection backend st with
  | (.error e, st') => (.error e, st')
  | (.ok _, st') =>
    match salesforceTools.find? (fun t => t.name == toolName) with
    | none => (.error ⟨404, "Tool not found: " ++ toolName⟩, st')
    | some tool =>
      match tool.inputSchema parameters with
      | .error msg => (.error ⟨400, "Invalid parameters: " ++ msg⟩, st')
      | .ok validated => dispatchTool backend st' toolName validated

end PromptLock.SF

namespace PromptLock.Context

/-!
## `src/server/routes/context.ts`

The POST handler's per-service loop, parameterised over the outcome of
each adapter call: `env` maps a requested service type to either an
adapter behaviour (the outcomes of its `listResources` and `readResource`
calls) or the message of the error thrown while resolving it.  Error
values are the thrown error's `message` string, which is what the handler
interpolates into the document.
-/

open PromptLock

/-- The observable behaviour of one adapter instance during the loop: the
outcome of `listResources()` and of each `readResource(url)`. -/
structure Adapter where
  listResources : Except String (List MCPResource)
  readResource : String → Except String String

/-- The `options` object after zod validation (`maxTokens?: number`,
`includeMetadata?: boolean`). -/
structure ContextOptions where
  maxTokens : Option Int
  includeMetadata : Bool

/-- One `metadata[service][resource.name] = {timestamp, size}` record. -/
structure MetaEntry where
  service : String
  resource : String
  timestamp : String
  size : Nat
deriving DecidableEq

/-- The two accumulators of the handler: the running document and the
metadata records. -/
structure BuildState where
  context : String
  metadata : List MetaEntry
deriving DecidableEq

/-- The error line appended by the per-service `catch`. -/
def errLine (service msg : String) : String :=
  "Error getting context for " ++ service ++ ": " ++ msg ++ "\n\n"

/-- The section header appended once `listResources` has succeeded. -/
def sectionHeader (service : String) : String :=
  "\n=== " ++ jsUpper service ++ " ===\n\n"

/-- The block appended per successfully read resource. -/
def resourceBlock (name content : String) : String :=
  "--- " ++ name ++ " ---\n" ++ content ++ "\n\n"

/-- The inner `for (const resource of resources)` loop.  A failing
`readResource` throws to the per-service `catch`: the error line is
appended after whatever this service already contributed, and the rest of
this service's resources are skipped. -/
def processResources (a : Adapter) (opts : ContextOptions) (now : String)
    (service : String) : List MCPResource → BuildState → BuildState
  | [], st => st
  | r :: rest, st =>
    match a.readResource r.url with
    | .error e => { st with context := st.context ++ errLine service e }
    | .ok content =>
      processResources a opts now service rest
        { context := st.context ++ resourceBlock r.name content,
          metadata :=
            if opts.includeMetadata then
              st.metadata ++ [⟨service, r.name, now, content.length⟩]
            else st.metadata }

/-- One iteration of `for (const service of services)`, `try`/`catch`
included. -/
def processService (env : String → Except String Adapter)
    (opts : ContextOptions) (now : String)
    (st : BuildState) (service : String) : BuildState :=
  match env service with
  | .error e => { st with context := st.context ++ errLine service e }
  | .ok a =>
    match a.listResources with
    | .error e => { st with context := st.context ++ errLine service e }
    | .ok rs =>
      processResources a opts now service rs
        { st with context := st.context ++ sectionHeader service }

/-- The handler's response data `{context, metadata?}`. -/
structure ContextResult where
  context : String
  metadata : Option (List MetaEntry)
deriving DecidableEq

/-- The whole POST handler body after validation: the service loop, then
truncation when `options?.maxTokens` is truthy (so not for `0`), then the
optional metadata. -/
def buildContext (env : String → Except String Adapter)
    (services : List String) (opts : ContextOptions) (now : String) :
    ContextResult :=
  let st := services.foldl (processService env opts now) ⟨"", []⟩
  let ctx :=
    match opts.maxTokens with
    | some n => if n == 0 then st.context else jsSliceTo st.context (n * 4)
    | none => st.context
  ⟨ctx, if opts.includeMetadata then some st.metadata else none⟩

/-- Specification view of the inner loop: the text one service appends for
a given resource list. -/
def resourcesText (a : Adapter) (service : String) : List MCPResource → String
  | [] => ""
  | r :: rest =>
    match a.readResource r.url with
    | .error e => errLine service e
    | .ok content => resourceBlock r.name content ++ resourcesText a service rest

/-- Specification view of one loop iteration: the text one service appends
to the document. -/
def serviceContribution (env : String → Except String Adapter)
    (service : String) : String :=
  match env service with
  | .error e => errLine service e
  | .ok a =>
    match a.listResources with
    | .error e => errLine service e
    | .ok rs => sectionHeader service ++ resourcesText a service rs

/-- The section a service contributes when every step succeeds: its header
followed by one block per resource, in `listResources` order. -/
def fullSection (env : String → Except String Adapter) (service : String) :
    String :=
  match env service with
  | .ok a =>
    match a.listResources with
    | .ok rs =>
      sectionHeader service ++
        concatAll (rs.map (fun r =>
          match a.readResource r.url with
          | .ok content => resourceBlock r.name content
          | .error _ => ""))
    | .error _ => ""
  | .error _ => ""

/-- Every step of `service` succeeds under `env`. -/
def serviceOk (env : String → Except String Adapter) (service : String) :
    Prop :=
  ∃ a rs, env service = .ok a ∧ a.listResources = .ok rs ∧
    ∀ r ∈ rs, ∃ content, a.readResource r.url = .ok content

end PromptLock.Context

namespace PromptLock.Context

open PromptLock

/-- The behaviour, during the aggregation loop, of a concrete
`SalesforceAdapter` frozen at state `st`: `listResources` is the static
table and each `readResource` outcome is this instance's, reporting the
thrown `APIError`'s `message` (which is what the handler's `catch`
interpolates).  The state is frozen because the one instance the route
ever builds is credential-less, and a credential-less instance never
changes state (`SF.readResource` fails before any transition — proved in
`readResource_no_credentials` below). -/
def adapterView (backend : Backend) (st : SF.AdapterState) : Adapter where
  listResources := .ok SF.listResources
  readResource := fun url =>
    match (SF.readResource backend st url).1 with
    | .ok content => .ok content
    | .error e => .error e.message

/-- The route's `getAdapter(type)` helper: a `switch` on the lowercased
service type that builds `new SalesforceAdapter()` — with no credentials
and without consulting any connection store — and throws
`Unsupported service type` otherwise. -/
def getAdapter (backend : Backend) (ty : String) : Except String Adapter :=
  if jsLower ty == "salesforce" then .ok (adapterView backend (SF.mkAdapter none))
  else .error ("Unsupported service type: " ++ ty)

end PromptLock.Context

namespace PromptLock.MCP

/-!
## The MCP server iteration: `SalesforceAdapter.handleMcpMessage` and
`app.post('/api/mcp/:connectionId')`
-/

open PromptLock

/-- An inbound MCP envelope `{type, id, resource?, tool?, parameters?}`.
Absent JSON fields are `none`. -/
structure McpMessage where
  type : String
  id : Option String
  resource : Option String
  tool : Option String
  parameters : Option Json

/-- The payload of an outbound envelope (the fields other than `type` and
`id`). -/
inductive McpPayload where
  | discover (name version : String) (capabilities : List String)
  | resources (rs : List MCPResource)
  | content (c : String)
  | tools (names : List String)
  | result (r : String)
deriving DecidableEq

/-- An outbound MCP envelope. -/
structure McpResponse where
  type : String
  id : Option String
  payload : McpPayload
deriving DecidableEq

/-- The mutable fields of this iteration's `SalesforceAdapter` (its
constructor always receives credentials). -/
structure McpState where
  credentials : SalesforceCredentials
  isConnected : Bool
  objectsMetadata : List (String × String)
deriving DecidableEq

/-- Constructor `new SalesforceAdapter(credentials)` of the MCP iteration. -/
def mkMcpAdapter (credentials : SalesforceCredentials) : McpState :=
  ⟨credentials, false, []⟩

/-- This iteration's `ensureConnection` (no credentials check — the
constructor requires them); errors are plain `Error` messages. -/
def ensureConnection (backend : Backend) (st : McpState) :
    Except String Unit × McpState :=
  if st.isConnected then (.ok (), st)
  else
    match backend.login st.credentials.username st.credentials.password with
    | .ok _ => (.ok (), { st with isConnected := true })
    | .error _ => (.error "Failed to authenticate with Salesforce", st)

/-- Rendering of a possibly-`undefined` string into a template literal. -/
def showOptStr : Option String → String
  | some s => s
  | none => "undefined"

/-- Read a string field out of the (possibly absent) `parameters` object. -/
def jsonFieldStr (p : Option Json) (key : String) : Option String :=
  match p with
  | some (.obj fs) =>
    match getField fs key with
    | some (.str s) => some s
    | _ => none
  | _ => none

/-- Read a numeric field out of the (possibly absent) `parameters`
object. -/
def jsonFieldNum (p : Option Json) (key : String) : Option Int :=
  match p with
  | some (.obj fs) =>
    match getField fs key with
    | some (.num n) => some n
    | _ => none
  | _ => none

/-- Read a string-array field out of the (possibly absent) `parameters`
object. -/
def jsonFieldStrArr (p : Option Json) (key : String) : Option (List String) :=
  match p with
  | some (.obj fs) =>
    match getField fs key with
    | some (.arr xs) =>
      some (xs.filterMap fun j => match j with | .str s => some s | _ => none)
    | _ => none
  | _ => none

/-- This iteration's `getGlobalObjects` helper. -/
def getGlobalObjects (backend : Backend) : Except String String :=
  match backend.describeGlobal with
  | .ok s => .ok s
  | .error msg => .error ("Failed to get global objects: " ++ msg)

/-- This iteration's `queryRecords` helper (same `LIMIT` logic as the typed
adapter; errors are plain messages). -/
def queryRecords (backend : Backend) (soql : String) (limit : Option Int) :
    Except String String :=
  let query :=
    match limit with
    | some l =>
      if l != 0 && !(containsSub (jsLower soql) "limit") then
        soql ++ " LIMIT " ++ toString l
      else soql
    | none => soql
  match backend.query query with
  | .ok r => .ok r
  | .error msg => .error ("Failed to execute query: " ++ msg)

/-- This iteration's `getRecord` helper. -/
def getRecord (backend : Backend) (objectType recordId : String)
    (fields : Option (List String)) : Except String String :=
  let call :=
    match fields with
    | some fs =>
      if fs.length > 0 then backend.retrieve objectType recordId (some fs)
      else backend.retrieve objectType recordId none
    | none => backend.retrieve objectType recordId none
  match call with
  | .ok r => .ok r
  | .error msg => .error ("Failed to retrieve record: " ++ msg)

/-- This iteration's `describeObject` helper, with the per-instance
cache. -/
def describeObject (backend : Backend) (st : McpState) (objectType : String) :
    Except String String × McpState :=
  match st.objectsMetadata.lookup objectType with
  | some m => (.ok m, st)
  | none =>
    match backend.describe objectType with
    | .ok m =>
      (.ok m, { st with objectsMetadata := st.objectsMetadata ++ [(objectType, m)] })
    | .error msg => (.error ("Failed to describe object: " ++ msg), st)

/-- Method `handleReadResource`: connect, then branch on `message.resource`. -/
def handleReadResource (backend : Backend) (st : McpState) (m : McpMessage) :
    Except String McpResponse × McpState :=
  match ensureConnection backend st with
  | (.error e, st') => (.error e, st')
  | (.ok _, st') =>
    if m.resource == some "schema" then
      match getGlobalObjects backend with
      | .ok c => (.ok ⟨"read_resource_response", m.id, .content c⟩, st')
      | .error e => (.error e, st')
    else if m.resource == some "recent_items" then
      match backend.recent with
      | .ok c => (.ok ⟨"read_resource_response", m.id, .content c⟩, st')
      | .error e => (.error e, st')
    else (.error ("Unknown resource: " ++ showOptStr m.resource), st')

/-- Method `handleCallTool`: connect, then `switch (message.tool)` — no tool-table
lookup and no schema validation in this iteration; an unknown tool throws
`Unknown tool`. -/
def handleCallTool (backend : Backend) (st : McpState) (m : McpMessage) :
    Except String McpResponse × McpState :=
  match ensureConnection backend st with
  | (.error e, st') => (.error e, st')
  | (.ok _, st') =>
    if m.tool == some "query_records" then
      match queryRecords backend ((jsonFieldStr m.parameters "soql").getD "undefined")
          (jsonFieldNum m.parameters "limit") with
      | .ok r => (.ok ⟨"call_tool_response", m.id, .result r⟩, st')
      | .error e => (.error e, st')
    else if m.tool == some "get_record" then
      match getRecord backend ((jsonFieldStr m.parameters "objectType").getD "undefined")
          ((jsonFieldStr m.parameters "recordId").getD "undefined")
          (jsonFieldStrArr m.parameters "fields") with
      | .ok r => (.ok ⟨"call_tool_response", m.id, .result r⟩, st')
      | .error e => (.error e, st')
    else if m.tool == some "describe_object" then
      match describeObject backend st' ((jsonFieldStr m.parameters "objectType").getD "undefined") with
      | (.ok r, st'') => (.ok ⟨"call_tool_response", m.id, .result r⟩, st'')
      | (.error e, st'') => (.error e, st'')
    else (.error ("Unknown tool: " ++ showOptStr m.tool), st')

/-- Method `handleMcpMessage`: the message router's dispatch on `message.type`;
an unrecognized type throws before any adapter operation runs (note the
result of that branch mentions neither `backend` nor `st`). -/
def handleMcpMessage (backend : Backend) (st : McpState) (m : McpMessage) :
    Except String McpResponse × McpState :=
  if m.type == "discover" then
    (.ok ⟨"discover_response", m.id, .discover "Salesforce" "1.0.0" ["resources", "tools"]⟩, st)
  else if m.type == "list_resources" then
    (.ok ⟨"list_resources_response", m.id, .resources SF.SALESFORCE_RESOURCES⟩, st)
  else if m.type == "read_resource" then
    handleReadResource backend st m
  else if m.type == "list_tools" then
    (.ok ⟨"list_tools_response", m.id,
      .tools ["query_records", "get_record", "describe_object"]⟩, st)
  else if m.type == "call_tool" then
    handleCallTool backend st m
  else
    (.error ("Unsupported message type: " ++ m.type), st)

/-- A record of the in-memory `connections` map of this server iteration:
`{id, type, credentials, owner}`. -/
structure StoredConn where
  id : String
  type : String
  credentials : SalesforceCredentials
  owner : String
deriving DecidableEq

/-- The body of an HTTP reply: either a serialized MCP envelope or a bare
`{error: ...}` object (which carries no `id` field). -/
inductive HttpBody where
  | mcp (r : McpResponse)
  | err (msg : String)
deriving DecidableEq

/-- An HTTP reply: status code and body. -/
structure HttpResponse where
  status : Nat
  body : HttpBody
deriving DecidableEq

/-- The envelope `id` carried by a reply body, when the body is an
envelope at all. -/
def responseId : HttpBody → Option (Option String)
  | .mcp r => some r.id
  | .err _ => none

/-- Route `app.post` for `/api/mcp/:connectionId`: look the connection up, check
ownership, build a fresh adapter from the stored credentials, dispatch,
and turn any thrown error into a plain 500 `{error}` body. -/
def mcpRoute (connections : List StoredConn) (backend : Backend)
    (userEmail connectionId : String) (m : McpMessage) : HttpResponse :=
  match connections.find? (fun c => c.id == connectionId) with
  | none => ⟨404, .err "Connection not found"⟩
  | some conn =>
    if conn.owner != userEmail then ⟨403, .err "Access denied"⟩
    else if conn.type == "salesforce" then
      match (handleMcpMessage backend (mkMcpAdapter conn.credentials) m).1 with
      | .ok resp => ⟨200, .mcp resp⟩
      | .error _ => ⟨500, .err "Failed to process MCP request"⟩
    else ⟨400, .err "Unsupported connection type"⟩

end PromptLock.MCP

namespace PromptLock.Conn

/-!
## The connections router (`connections.ts`)
-/

open PromptLock

/-- A record of the router's in-memory `connections` map:
`{id, type, credentials, userId}`; the credential blob is an opaque
key-value map. -/
structure StoredConnection where
  id : String
  type : String
  credentials : List (String × String)
  userId : String
deriving DecidableEq

/-- The store, in `Map` insertion order. -/
abbrev Store := List StoredConnection

/-- Lookup `connections.get(connectionId)`. -/
def findConn (store : Store) (connectionId : String) : Option StoredConnection :=
  store.find? (fun c => c.id == connectionId)

/-- A response payload, as the list of fields the handler actually puts in
the JSON object. -/
abbrev Fields := List (String × String)

/-- GET `/`: the user's connections, each reduced to `{id, type}` — the
comment in the source reads `Don't send credentials back`. -/
def listConnections (store : Store) (userId : Option String) :
    Except APIError (List Fields) :=
  match userId with
  | none => .error ⟨401, "User not found"⟩
  | some uid =>
    .ok ((store.filter (fun c => c.userId == uid)).map
      (fun c => [("id", c.id), ("type", c.type)]))

/-- POST `/`: store the record and answer `{connectionId, type}`; the
generated id (`conn_` + timestamp + randomness) is a parameter. -/
def addConnection (store : Store) (userId : Option String)
    (ty : String) (credentials : List (String × String)) (freshId : String) :
    Except APIError Fields × Store :=
  match userId with
  | none => (.error ⟨401, "User not found"⟩, store)
  | some uid =>
    (.ok [("connectionId", freshId), ("type", ty)],
     store ++ [⟨freshId, ty, credentials, uid⟩])

/-- GET `/:connectionId`: 404 when absent, 403 when owned by someone else,
otherwise `{id, type}` without the credentials. -/
def getConnection (store : Store) (userId : Option String)
    (connectionId : String) : Except APIError Fields :=
  match userId with
  | none => .error ⟨401, "User not found"⟩
  | some uid =>
    match findConn store connectionId with
    | none => .error ⟨404, "Connection not found"⟩
    | some c =>
      if c.userId != uid then .error ⟨403, "Access denied"⟩
      else .ok [("id", c.id), ("type", c.type)]

/-- DELETE `/:connectionId`: same checks, then removal; a thrown error
leaves the store as it was. -/
def deleteConnection (store : Store) (userId : Option String)
    (connectionId : String) : Except APIError String × Store :=
  match userId with
  | none => (.error ⟨401, "User not found"⟩, store)
  | some uid =>
    match findConn store connectionId with
    | none => (.error ⟨404, "Connection not found"⟩, store)
    | some c =>
      if c.userId != uid then (.error ⟨403, "Access denied"⟩, store)
      else (.ok "Connection deleted successfully",
            store.filter (fun x => x.id != connectionId))

/-- No field of the payload is named `credentials`. -/
def noCredentialsField (fs : Fields) : Prop :=
  ∀ kv ∈ fs, kv.1 ≠ "credentials"

end PromptLock.Conn

namespace PromptLock.Context

open PromptLock

theorem processResources_context (a : Adapter) (opts : ContextOptions)
    (now service : String) :
    ∀ (rs : List MCPResource) (st : BuildState),
      (processResources a opts now service rs st).context =
        st.context ++ resourcesText a service rs := by
  intro rs
  induction rs with
  | nil => intro st; simp [processResources, resourcesText]
  | cons r rest ih =>
    intro st
    simp only [processResources, resourcesText]
    cases a.readResource r.url with
    | error e => rfl
    | ok content => rw [ih]; simp [String.append_assoc]

theorem processService_context (env : String → Except String Adapter)
    (opts : ContextOptions) (now : String) (st : BuildState) (service : String) :
    (processService env opts now st service).context =
      st.context ++ serviceContribution env service := by
  rcases h : env service with e | a
  · simp [processService, serviceContribution, h]
  · rcases hl : a.listResources with e | rs
    · simp [processService, serviceContribution, h, hl]
    · simp only [processService, serviceContribution, h, hl]
      rw [processResources_context]
      simp [String.append_assoc]

theorem foldl_context (env : String → Except String Adapter)
    (opts : ContextOptions) (now : String) :
    ∀ (services : List String) (st : BuildState),
      (services.foldl (processService env opts now) st).context =
        st.context ++ concatAll (services.map (serviceContribution env)) := by
  intro services
  induction services with
  | nil => intro st; simp [concatAll]
  | cons s rest ih =>
    intro st
    simp only [List.foldl, List.map, concatAll]
    rw [ih, processService_context]
    simp [String.append_assoc]

theorem resourcesText_ok (a : Adapter) (service : String) :
    ∀ rs : List MCPResource,
      (∀ r ∈ rs, ∃ content, a.readResource r.url = .ok content) →
      resourcesText a service rs =
        concatAll (rs.map (fun r =>
          match a.readResource r.url with
          | .ok content => resourceBlock r.name content
          | .error _ => "")) := by
  intro rs
  induction rs with
  | nil => intro _; rfl
  | cons r rest ih =>
    intro h
    obtain ⟨content, hc⟩ := h r (List.mem_cons_self r rest)
    simp only [resourcesText, List.map, concatAll, hc]
    rw [ih (fun r hr => h r (List.mem_cons_of_mem _ hr))]

theorem serviceContribution_ok (env : String → Except String Adapter)
    (service : String) (h : serviceOk env service) :
    serviceContribution env service = fullSection env service := by
  obtain ⟨a, rs, henv, hlist, hread⟩ := h
  simp only [serviceContribution, fullSection, henv, hlist]
  rw [resourcesText_ok a service rs hread]

end PromptLock.Context

namespace PromptLock

open PromptLock.Context

/-- C1.  With no token budget in play, `buildContext` is a total function
whose document is exactly the concatenation, in caller-supplied order, of
one contribution per requested service; by the definition of
`serviceContribution`, a service whose adapter resolution, `listResources`
or any `readResource` fails contributes the error line
`Error getting context for SERVICE: MESSAGE` (after whatever that service
had already appended) and processing continues, while every succeeding
service contributes its full section.  The result type of `buildContext`
itself shows that no adapter failure escapes the per-service catch. -/
theorem buildContext_failure_isolation
    (env : String → Except String Adapter) (services : List String)
    (meta : Bool) (now : String) :
    (buildContext env services ⟨none, meta⟩ now).context =
      concatAll (services.map (serviceContribution env)) := by
  simp only [buildContext]
  rw [foldl_context]
  simp

/-- C4.  When every requested service succeeds, the returned document is
the concatenation of the services' full sections in the caller-supplied
order, and inside each section the resource blocks follow the order
returned by that adapter's `listResources` (this is what `fullSection`
says). -/
theorem buildContext_order_preservation
    (env : String → Except String Adapter) (services : List String)
    (meta : Bool) (now : String)
    (h : ∀ s ∈ services, serviceOk env s) :
    (buildContext env services ⟨none, meta⟩ now).context =
      concatAll (services.map (fullSection env)) := by
  simp only [buildContext]
  rw [foldl_context]
  simp only [String.empty_append]
  congr 1
  exact List.map_congr_left (fun s hs => serviceContribution_ok env s (h s hs))

/-- Demonstration environment for the order-preservation witness: two
services, both succeeding, listed as `["b", "a"]`. -/
def envDemo : String → Except String Adapter := fun s =>
  if s == "b" then
    .ok ⟨.ok [⟨"r1", "d1", "u1"⟩], fun _ => .ok "content-b"⟩
  else if s == "a" then
    .ok ⟨.ok [⟨"r2", "d2", "u2"⟩, ⟨"r3", "d3", "u3"⟩], fun _ => .ok "content-a"⟩
  else .error "unreachable"

theorem buildContext_order_preservation_witness :
    (∀ s ∈ ["b", "a"], serviceOk envDemo s) ∧
    (buildContext envDemo ["b", "a"] ⟨none, false⟩ "t").context =
      concatAll (["b", "a"].map (fullSection envDemo)) := by
  have h : ∀ s ∈ ["b", "a"], serviceOk envDemo s := by
    intro s hs
    simp only [List.mem_cons, List.not_mem_nil, or_false] at hs
    rcases hs with rfl | rfl
    · exact ⟨_, _, rfl, rfl, fun r _ => ⟨"content-b", rfl⟩⟩
    · exact ⟨_, _, rfl, rfl, fun r _ => ⟨"content-a", rfl⟩⟩
  exact ⟨h, buildContext_order_preservation envDemo ["b", "a"] false "t" h⟩

/-- An environment in which every service fails to resolve, as the source's
`getAdapter` does for non-Salesforce types. -/
def envFail : String → Except String Adapter := fun s =>
  .error ("Unsupported service type: " ++ s)

/-- C5, counterexample.  With `maxTokens = 0` the truncation branch is
skipped (`0` is falsy), so the returned context can be longer than
`4 × 0 = 0` characters: here a single failing service already produces a
non-empty error document. -/
theorem buildContext_truncation_bound_counterexample :
    ¬ ((buildContext envFail ["foo"] ⟨some 0, false⟩ "now").context.length
        ≤ 4 * 0) := by decide

/-- C5, amended.  For every truthy token budget `n > 0`, the returned
context has length at most `4 × n` characters, obtained by hard-cutting
the assembled document after all services are processed. -/
theorem buildContext_truncation_bound
    (env : String → Except String Adapter) (services : List String)
    (meta : Bool) (now : String) (n : Int) (h : 0 < n) :
    (buildContext env services ⟨some n, meta⟩ now).context.length
      ≤ n.toNat * 4 := by
  have hne : (n == 0) = false := by
    simp only [beq_eq_false_iff_ne]
    omega
  have hnn : ¬ (n * 4 < 0) := by omega
  simp only [buildContext, jsSliceTo, hne, if_false, Bool.false_eq_true, hnn,
    if_neg, String.length]
  simp only [List.length_take]
  omega

theorem buildContext_truncation_bound_witness :
    (0 : Int) < 1 ∧
    (buildContext envFail ["foo"] ⟨some 1, false⟩ "now").context.length
      ≤ (1 : Int).toNat * 4 :=
  ⟨by decide,
   buildContext_truncation_bound envFail ["foo"] false "now" 1 (by decide)⟩

/-- The service loop reads only `includeMetadata` from the options; the
token budget plays no part before truncation. -/
theorem processResources_opts_irrel (a : Adapter) (now service : String)
    (mt1 mt2 : Option Int) (m : Bool) :
    ∀ (rs : List MCPResource) (st : BuildState),
      processResources a ⟨mt1, m⟩ now service rs st =
        processResources a ⟨mt2, m⟩ now service rs st := by
  intro rs
  induction rs with
  | nil => intro st; rfl
  | cons r rest ih =>
    intro st
    simp only [processResources]
    rcases h : a.readResource r.url with e | content
    · rfl
    · exact ih _

theorem processService_opts_irrel (env : String → Except String Adapter)
    (now : String) (mt1 mt2 : Option Int) (m : Bool) :
    processService env ⟨mt1, m⟩ now = processService env ⟨mt2, m⟩ now := by
  funext st s
  rcases h : env s with e | a
  · simp [processService, h]
  · rcases hl : a.listResources with e | rs
    · simp [processService, h, hl]
    · simp only [processService, h, hl]
      exact processResources_opts_irrel a now s mt1 mt2 m rs _

/-- C10.  A requested budget of `0` tokens disables truncation entirely:
the truncation branch runs only when `options.maxTokens` is truthy, and
`0` is falsy, so the call behaves exactly as if no budget had been
given. -/
theorem buildContext_zero_maxTokens_no_truncation
    (env : String → Except String Adapter) (services : List String)
    (meta : Bool) (now : String) :
    buildContext env services ⟨some 0, meta⟩ now =
      buildContext env services ⟨none, meta⟩ now := by
  simp only [buildContext, processService_opts_irrel env now (some 0) none meta]
  simp

/-- A credential-less `SalesforceAdapter` fails every `readResource` before
touching the backend and never changes state. -/
theorem readResource_no_credentials (backend : Backend) (url : String) :
    SF.readResource backend (SF.mkAdapter none) url =
      (.error ⟨400, "Salesforce credentials not provided"⟩, SF.mkAdapter none) := rfl

/-- C6 (code bug).  The context route's `getAdapter` never consults the
connection store and re-checks no ownership: it takes only the service
type (its Lean type shows no owner and no store) and builds
`new SalesforceAdapter()` with no credentials, so every `readResource` of
the aggregation fails with `Salesforce credentials not provided` and every
`buildContext` call over `["salesforce"]` returns only a header plus that
error line — the resolved-connection flow the specification describes
cannot happen. -/
theorem context_aggregator_skips_connection_store
    (backend : Backend) (now url : String) :
    Context.getAdapter backend "salesforce" =
      .ok (Context.adapterView backend (SF.mkAdapter none)) ∧
    (Context.adapterView backend (SF.mkAdapter none)).readResource url =
      .error "Salesforce credentials not provided" ∧
    (buildContext (Context.getAdapter backend) ["salesforce"]
        ⟨none, false⟩ now).context =
      sectionHeader "salesforce" ++
        errLine "salesforce" "Salesforce credentials not provided" :=
  ⟨rfl, rfl, rfl⟩

end PromptLock

namespace PromptLock

/-- Concrete credentials used by witnesses and counterexamples. -/
def demoCreds : SalesforceCredentials := ⟨"cid", "csecret", "user@example.com", "pw"⟩

/-- A backend that rejects every login and answers every other call. -/
def backendDown : Backend where
  login := fun _ _ => .error "INVALID_LOGIN"
  describeGlobal := .ok "sobjects-json"
  recent := .ok "recent-json"
  query := fun _ => .ok "query-rows"
  retrieve := fun _ _ _ => .ok "record-json"
  describe := fun _ => .ok "object-metadata"

/-- The same backend with logins accepted. -/
def backendUp : Backend := { backendDown with login := fun _ _ => .ok () }

/-- An adapter instance whose session is already established. -/
def stConnected : SF.AdapterState := ⟨some demoCreds, true, []⟩

/-- C8, counterexample.  `callTool` runs `ensureConnection` before looking
the tool name up, so on an instance whose session cannot be established
(here: the credential-less one) an unknown tool name fails with the
credentials error, not with `NotFound` — the claim's `whenever` does not
hold unconditionally. -/
theorem callTool_auth_precedes_lookup_counterexample :
    (SF.callTool backendUp (SF.mkAdapter none) "nonexistent" (.obj [])).1 =
      .error ⟨400, "Salesforce credentials not provided"⟩ ∧
    (⟨400, "Salesforce credentials not provided"⟩ : APIError) ≠
      ⟨404, "Tool not found: nonexistent"⟩ :=
  ⟨rfl, by decide⟩

/-- C8, amended.  On an adapter whose backend session is established,
`callTool` fails with 404 `Tool not found` exactly when the name is not in
the static descriptor table, fails with 400 `Invalid parameters` when the
name is known but the parameters violate that tool's zod schema, and
`readResource` fails with 404 `Unknown resource` for any locator other
than the two declared ones; when session establishment fails, the
operations report the authentication error instead. -/
theorem adapter_unknown_tool_resource_errors
    (backend : Backend) (st : SF.AdapterState) (name url : String) (params : Json)
    (hconn : st.isConnected = true) :
    ((SF.salesforceTools.find? (fun t => t.name == name) = none →
      (SF.callTool backend st name params).1 =
        .error ⟨404, "Tool not found: " ++ name⟩)) ∧
    (∀ tool, SF.salesforceTools.find? (fun t => t.name == name) = some tool →
      ∀ e, tool.inputSchema params = .error e →
      (SF.callTool backend st name params).1 =
        .error ⟨400, "Invalid parameters: " ++ e⟩) ∧
    (url ≠ "schema" → url ≠ "recent_items" →
      (SF.readResource backend st url).1 =
        .error ⟨404, "Unknown resource: " ++ url⟩) := by
  refine ⟨?_, ?_, ?_⟩
  · intro hfind
    simp [SF.callTool, SF.ensureConnection, hconn, hfind]
  · intro tool hfind e hparse
    simp [SF.callTool, SF.ensureConnection, hconn, hfind, hparse]
  · intro h1 h2
    have e1 : (url == "schema") = false := beq_eq_false_iff_ne.mpr h1
    have e2 : (url == "recent_items") = false := beq_eq_false_iff_ne.mpr h2
    simp [SF.readResource, SF.ensureConnection, hconn, e1, e2]

theorem adapter_unknown_tool_resource_errors_witness :
    stConnected.isConnected = true ∧
    (SF.callTool backendUp stConnected "nonexistent" (.obj [])).1 =
      .error ⟨404, "Tool not found: nonexistent"⟩ ∧
    (SF.readResource backendUp stConnected "nonexistent").1 =
      .error ⟨404, "Unknown resource: nonexistent"⟩ :=
  ⟨rfl,
   (adapter_unknown_tool_resource_errors backendUp stConnected
      "nonexistent" "nonexistent" (.obj []) rfl).1 rfl,
   (adapter_unknown_tool_resource_errors backendUp stConnected
      "nonexistent" "nonexistent" (.obj []) rfl).2.2 (by decide) (by decide)⟩

/-- C9, counterexample.  After a failed session establishment the instance
state is unchanged — there is no failure latch — so the very next
operation on the same instance, with the same credentials, attempts a
fresh login and succeeds as soon as the backend accepts it: the claim that
no further login attempt is ever made (and that every subsequent operation
fails) is false. -/
theorem auth_failure_retried_counterexample :
    (SF.readResource backendDown (SF.mkAdapter (some demoCreds)) "schema").1 =
      .error ⟨500, "Failed to authenticate with Salesforce"⟩ ∧
    (SF.readResource backendDown (SF.mkAdapter (some demoCreds)) "schema").2 =
      SF.mkAdapter (some demoCreds) ∧
    (SF.readResource backendUp
        ((SF.readResource backendDown (SF.mkAdapter (some demoCreds)) "schema").2)
        "schema").1 = .ok "sobjects-json" :=
  ⟨rfl, rfl, rfl⟩

/-- C9, amended.  A failed establishment leaves the adapter exactly as it
was (`isConnected` still `false`, credentials untouched), so each
subsequent operation re-attempts the login: it fails with the
authentication error again while the backend keeps rejecting the login,
and succeeds as soon as the backend accepts it — no credential
replacement is required for the retry. -/
theorem auth_no_latch_retry
    (st : SF.AdapterState) (c : SalesforceCredentials) (bFail bOk : Backend)
    (e : String)
    (hnc : st.isConnected = false) (hcred : st.credentials = some c)
    (hfail : bFail.login c.username c.password = .error e)
    (hok : bOk.login c.username c.password = .ok ()) :
    SF.ensureConnection bFail st =
      (.error ⟨500, "Failed to authenticate with Salesforce"⟩, st) ∧
    SF.ensureConnection bOk st = (.ok (), { st with isConnected := true }) := by
  constructor <;> simp [SF.ensureConnection, hnc, hcred, hfail, hok]

theorem auth_no_latch_retry_witness :
    (SF.mkAdapter (some demoCreds)).isConnected = false ∧
    (SF.mkAdapter (some demoCreds)).credentials = some demoCreds ∧
    backendDown.login demoCreds.username demoCreds.password =
      .error "INVALID_LOGIN" ∧
    backendUp.login demoCreds.username demoCreds.password = .ok () ∧
    SF.ensureConnection backendDown (SF.mkAdapter (some demoCreds)) =
      (.error ⟨500, "Failed to authenticate with Salesforce"⟩,
       SF.mkAdapter (some demoCreds)) ∧
    SF.ensureConnection backendUp (SF.mkAdapter (some demoCreds)) =
      (.ok (), { SF.mkAdapter (some demoCreds) with isConnected := true }) :=
  ⟨rfl, rfl, rfl, rfl,
   (auth_no_latch_retry (SF.mkAdapter (some demoCreds)) demoCreds
      backendDown backendUp "INVALID_LOGIN" rfl rfl rfl rfl).1,
   (auth_no_latch_retry (SF.mkAdapter (some demoCreds)) demoCreds
      backendDown backendUp "INVALID_LOGIN" rfl rfl rfl rfl).2⟩

end PromptLock

namespace PromptLock

open PromptLock.MCP

/-- The demo connections map: one Salesforce connection owned by `u1`. -/
def demoConns : List StoredConn := [⟨"c1", "salesforce", demoCreds, "u1"⟩]

theorem handleReadResource_id (backend : Backend) (st : McpState)
    (m : McpMessage) (resp : McpResponse)
    (h : (handleReadResource backend st m).1 = .ok resp) : resp.id = m.id := by
  unfold handleReadResource at h
  repeat' split at h
  all_goals simp_all
  all_goals subst h; rfl

theorem handleCallTool_id (backend : Backend) (st : McpState)
    (m : McpMessage) (resp : McpResponse)
    (h : (handleCallTool backend st m).1 = .ok resp) : resp.id = m.id := by
  unfold handleCallTool at h
  repeat' split at h
  all_goals simp_all
  all_goals subst h; rfl

/-- C2, amended.  Every envelope the adapter successfully produces carries
the request's `id` (this holds for all five message kinds); when the
adapter throws, however, the HTTP layer answers with a bare
`{error: 'Failed to process MCP request'}` body that carries no `id` at
all (see `mcp_error_reply_drops_id_counterexample`). -/
theorem mcp_success_id_correlation (backend : Backend) (st : McpState)
    (m : McpMessage) (resp : McpResponse)
    (h : (handleMcpMessage backend st m).1 = .ok resp) : resp.id = m.id := by
  unfold handleMcpMessage at h
  split at h
  · simp_all; subst h; rfl
  · split at h
    · simp_all; subst h; rfl
    · split at h
      · exact handleReadResource_id backend st m resp h
      · split at h
        · simp_all; subst h; rfl
        · split at h
          · exact handleCallTool_id backend st m resp h
          · simp_all

theorem mcp_success_id_correlation_witness :
    (handleMcpMessage backendUp (mkMcpAdapter demoCreds)
        ⟨"discover", some "7", none, none, none⟩).1 =
      .ok ⟨"discover_response", some "7",
        .discover "Salesforce" "1.0.0" ["resources", "tools"]⟩ ∧
    (⟨"discover_response", some "7",
        .discover "Salesforce" "1.0.0" ["resources", "tools"]⟩ : McpResponse).id =
      some "7" :=
  ⟨rfl,
   mcp_success_id_correlation backendUp (mkMcpAdapter demoCreds)
     ⟨"discover", some "7", none, none, none⟩ _ rfl⟩

/-- C2, counterexample.  A dispatched `read_resource` request whose adapter
call fails (the backend rejects the login) is answered with the 500 body
`{error: 'Failed to process MCP request'}`, which is not an envelope and
carries no `id` — so the outbound error reply does not carry the
request's id `42`. -/
theorem mcp_error_reply_drops_id_counterexample :
    mcpRoute demoConns backendDown "u1" "c1"
        ⟨"read_resource", some "42", some "schema", none, none⟩ =
      ⟨500, .err "Failed to process MCP request"⟩ ∧
    responseId (mcpRoute demoConns backendDown "u1" "c1"
        ⟨"read_resource", some "42", some "schema", none, none⟩).body ≠
      some (some "42") :=
  ⟨rfl, by decide⟩

/-- C7, amended.  An envelope with an unrecognized `type` makes the
dispatcher throw `Unsupported message type` before any adapter operation
runs (the result is the same for every backend and every instance state,
which is what `no dispatch` means here); but an envelope with a missing
`id` is not rejected: it is dispatched normally and the response simply
carries the missing id. -/
theorem mcp_router_validation (backend : Backend) (st : McpState)
    (m : McpMessage) :
    (m.type ∉ ["discover", "list_resources", "read_resource", "list_tools",
        "call_tool"] →
      handleMcpMessage backend st m =
        (.error ("Unsupported message type: " ++ m.type), st)) ∧
    (m.type = "discover" →
      handleMcpMessage backend st m =
        (.ok ⟨"discover_response", m.id,
          .discover "Salesforce" "1.0.0" ["resources", "tools"]⟩, st)) := by
  constructor
  · intro h
    simp only [List.mem_cons, List.not_mem_nil, or_false, not_or] at h
    obtain ⟨h1, h2, h3, h4, h5⟩ := h
    have e1 : (m.type == "discover") = false := beq_eq_false_iff_ne.mpr h1
    have e2 : (m.type == "list_resources") = false := beq_eq_false_iff_ne.mpr h2
    have e3 : (m.type == "read_resource") = false := beq_eq_false_iff_ne.mpr h3
    have e4 : (m.type == "list_tools") = false := beq_eq_false_iff_ne.mpr h4
    have e5 : (m.type == "call_tool") = false := beq_eq_false_iff_ne.mpr h5
    simp [handleMcpMessage, e1, e2, e3, e4, e5]
  · intro h
    simp [handleMcpMessage, h]

theorem mcp_router_validation_witness :
    handleMcpMessage backendUp (mkMcpAdapter demoCreds)
        ⟨"bogus", some "1", none, none, none⟩ =
      (.error "Unsupported message type: bogus", mkMcpAdapter demoCreds) ∧
    handleMcpMessage backendUp (mkMcpAdapter demoCreds)
        ⟨"discover", none, none, none, none⟩ =
      (.ok ⟨"discover_response", none,
        .discover "Salesforce" "1.0.0" ["resources", "tools"]⟩,
       mkMcpAdapter demoCreds) :=
  ⟨(mcp_router_validation backendUp (mkMcpAdapter demoCreds)
      ⟨"bogus", some "1", none, none, none⟩).1 (by decide),
   (mcp_router_validation backendUp (mkMcpAdapter demoCreds)
      ⟨"discover", none, none, none, none⟩).2 rfl⟩

/-- C7, counterexample.  A `discover` envelope with no `id` field at all is
accepted, dispatched to the adapter, and answered with a 200 success
envelope (whose `id` is simply absent) — it is not rejected as a
malformed message. -/
theorem mcp_missing_id_dispatched_counterexample :
    mcpRoute demoConns backendUp "u1" "c1" ⟨"discover", none, none, none, none⟩ =
      ⟨200, .mcp ⟨"discover_response", none,
        .discover "Salesforce" "1.0.0" ["resources", "tools"]⟩⟩ := rfl

end PromptLock

namespace PromptLock

open PromptLock.Conn

/-- C3.  Whenever the store resolves `c.id` to `c` and the requester is not
`c`'s owner, both the single-connection GET and the DELETE fail with 403
`Access denied`, and the failed DELETE leaves the store exactly as it was;
moreover no response payload of the list, get or register handlers ever
contains a `credentials` field — each is built from `id` / `type` /
`connectionId` only. -/
theorem connections_ownership_isolation
    (store : Store) (c : StoredConnection) (u2 : String)
    (hfind : findConn store c.id = some c) (hne : u2 ≠ c.userId) :
    getConnection store (some u2) c.id = .error ⟨403, "Access denied"⟩ ∧
    deleteConnection store (some u2) c.id =
      (.error ⟨403, "Access denied"⟩, store) ∧
    (∀ uid ls, listConnections store (some uid) = .ok ls →
      ∀ fs ∈ ls, noCredentialsField fs) ∧
    (∀ uid cid fs, getConnection store (some uid) cid = .ok fs →
      noCredentialsField fs) ∧
    (∀ uid ty creds fid fs st2,
      addConnection store (some uid) ty creds fid = (.ok fs, st2) →
      noCredentialsField fs) := by
  have hbne : (c.userId != u2) = true := by
    simp only [bne_iff_ne, ne_eq]
    exact fun hcontra => hne hcontra.symm
  refine ⟨?_, ?_, ?_, ?_, ?_⟩
  · simp [getConnection, hfind, hbne]
  · simp [deleteConnection, hfind, hbne]
  · intro uid ls h fs hfs
    simp only [listConnections, Except.ok.injEq] at h
    subst h
    simp only [List.mem_map] at hfs
    obtain ⟨c', _, rfl⟩ := hfs
    intro kv hkv
    simp only [List.mem_cons, List.not_mem_nil, or_false] at hkv
    rcases hkv with rfl | rfl
    · exact (by decide : ("id" : String) ≠ "credentials")
    · exact (by decide : ("type" : String) ≠ "credentials")
  · intro uid cid fs h
    simp only [getConnection] at h
    rcases hf : findConn store cid with _ | c''
    · simp [hf] at h
    · simp only [hf] at h
      by_cases hcu : (c''.userId != uid) = true
      · rw [if_pos hcu] at h; simp at h
      · rw [if_neg hcu] at h
        simp only [Except.ok.injEq] at h
        subst h
        intro kv hkv
        simp only [List.mem_cons, List.not_mem_nil, or_false] at hkv
        rcases hkv with rfl | rfl
        · exact (by decide : ("id" : String) ≠ "credentials")
        · exact (by decide : ("type" : String) ≠ "credentials")
  · intro uid ty creds fid fs st2 h
    simp only [addConnection, Prod.mk.injEq, Except.ok.injEq] at h
    obtain ⟨rfl, _⟩ := h
    intro kv hkv
    simp only [List.mem_cons, List.not_mem_nil, or_false] at hkv
    rcases hkv with rfl | rfl
    · exact (by decide : ("connectionId" : String) ≠ "credentials")
    · exact (by decide : ("type" : String) ≠ "credentials")

/-- The demo connection store: one record owned by `u1`, with a credential
blob. -/
def demoStore : Store := [⟨"c9", "salesforce", [("password", "hunter2")], "u1"⟩]

/-- The demo record itself. -/
def demoRecord : StoredConnection := ⟨"c9", "salesforce", [("password", "hunter2")], "u1"⟩

theorem connections_ownership_isolation_witness :
    findConn demoStore demoRecord.id = some demoRecord ∧
    "u2" ≠ demoRecord.userId ∧
    getConnection demoStore (some "u2") demoRecord.id =
      .error ⟨403, "Access denied"⟩ ∧
    deleteConnection demoStore (some "u2") demoRecord.id =
      (.error ⟨403, "Access denied"⟩, demoStore) :=
  ⟨rfl, by decide,
   (connections_ownership_isolation demoStore demoRecord "u2" rfl (by decide)).1,
   (connections_ownership_isolation demoStore demoRecord "u2" rfl (by decide)).2.1⟩

end PromptLock
